import Mathlib

set_option maxRecDepth 8000

/-!
Shallow embedding of the log-driven validation engine of the `bedrockci`
repository.

The embedded code:
* `src/lib/src/validate.rs` — `process_line` (the line classifier / phase
  tracker / accumulator update) and the `select!` run loop of `start_server`;
* `src/cli/src/commands/validate.rs` — `handle_validation_results` (the
  verdict engine and the per-finding category grouping).

Rust strings are modelled as Lean `String`; `str::contains` is substring
search (`occursIn`); `Instant` timestamps are modelled as natural-number
seconds; the two output streams are modelled as one merged script of
incoming lines, each carrying the time gap since the previous event the
`select!` returned on (cross-stream interleave order is not guaranteed by
the code, and none of the proved properties depend on it).
-/

/-- Helper for substring search: does `pat` occur at the start of `s`?
Models the inner loop of Rust `str::contains`. -/
def startsList : List Char → List Char → Bool
  | [], _ => true
  | _ :: _, [] => false
  | p :: ps, c :: cs => p == c && startsList ps cs

/-- Substring occurrence: does `pat` occur contiguously inside `s`?
Models Rust `str::contains` on the character level. -/
def occursIn (pat : List Char) : List Char → Bool
  | [] => startsList pat []
  | c :: cs => startsList pat (c :: cs) || occursIn pat cs

/-- Rust `line.contains(pat)` for Lean strings. -/
def containsStr (s pat : String) : Bool := occursIn pat.toList s.toList

/-- Rust `str::trim` on a character list (ASCII whitespace; all the lines
the engine consumes are ASCII). -/
def trimList (l : List Char) : List Char :=
  ((l.dropWhile Char.isWhitespace).reverse.dropWhile Char.isWhitespace).reverse

/-- Rust `line.trim()`. -/
def trimString (s : String) : String := String.mk (trimList s.toList)

/-- The block-end separator literal of `process_line`
(`src/lib/src/validate.rs:454`): a run of exactly 54 `=` characters. -/
def telemetrySeparator : String := String.mk (List.replicate 54 '=')

/-- The 52-character `=` separator line written in the specification's
end-to-end scenario (§8.7 of the spec); two characters shorter than the
literal the code searches for. -/
def specSeparator52 : String := String.mk (List.replicate 52 '=')

/-- Mirror of the Rust struct `ValidationResult`
(`src/lib/src/validate.rs:28`): one ordered list of raw finding lines per
severity. -/
structure ValidationResult where
  errors : List String
  warnings : List String
  info : List String
deriving Repr, DecidableEq

/-- The mutable local state threaded through `process_line` by
`start_server` (`src/lib/src/validate.rs:373-385`): the accumulator, the
`last_log_time` instant, and the three phase flags. -/
structure MonitorState where
  validation_result : ValidationResult
  last_log_time : Nat
  telemetry_seen : Bool
  server_started : Bool
  telemetry_complete : Bool
deriving Repr, DecidableEq

/-- Initial monitor state of `start_server`: empty accumulator,
`last_log_time = Instant::now()` (time 0 here), all flags false. -/
def initialMonitorState : MonitorState :=
  { validation_result := { errors := [], warnings := [], info := [] }
    last_log_time := 0
    telemetry_seen := false
    server_started := false
    telemetry_complete := false }

/-- Faithful translation of `process_line` (`src/lib/src/validate.rs:430-482`).
The Rust function takes the line already trimmed and non-empty, mutates the
state in place and always returns `Ok(())`; here it returns the new state.
`now` is the current instant, written into `last_log_time` exactly where
the Rust writes `Instant::now()`. -/
def process_line (now : Nat) (line : String) (st : MonitorState) : MonitorState :=
  if containsStr line "Server started." then
    { st with server_started := true }
  else if containsStr line "TELEMETRY MESSAGE" then
    { st with telemetry_seen := true, last_log_time := now }
  else if st.telemetry_seen && containsStr line telemetrySeparator then
    { st with telemetry_seen := false, telemetry_complete := true, last_log_time := now }
  else if !st.server_started || st.telemetry_seen then
    st
  else
    let st1 :=
      if containsStr line "ERROR" || containsStr line "WARN" || containsStr line "INFO" then
        { st with last_log_time := now }
      else st
    if containsStr line "ERROR" then
      { st1 with validation_result :=
          { st1.validation_result with
              errors := st1.validation_result.errors ++ [line] } }
    else if containsStr line "WARN" then
      { st1 with validation_result :=
          { st1.validation_result with
              warnings := st1.validation_result.warnings ++ [line] } }
    else if containsStr line "INFO" then
      { st1 with validation_result :=
          { st1.validation_result with
              info := st1.validation_result.info ++ [line] } }
    else st1

/-- Severity of a classified line. -/
inductive Severity where
  | error
  | warning
  | info
deriving Repr, DecidableEq

/-- Severity classification of `process_line`: substring search with the
fixed priority ERROR, then WARN, then INFO; `none` when no keyword is
present. -/
def severityOf (line : String) : Option Severity :=
  if containsStr line "ERROR" then some Severity.error
  else if containsStr line "WARN" then some Severity.warning
  else if containsStr line "INFO" then some Severity.info
  else none

/-- The accumulator bucket belonging to a severity. -/
def bucket : Severity → ValidationResult → List String
  | Severity.error, vr => vr.errors
  | Severity.warning, vr => vr.warnings
  | Severity.info, vr => vr.info

/-- Appending a line to exactly the bucket of severity `s`, leaving the two
other buckets unchanged. -/
def pushSeverity (s : Severity) (line : String) (vr : ValidationResult) : ValidationResult :=
  match s with
  | Severity.error => { vr with errors := vr.errors ++ [line] }
  | Severity.warning => { vr with warnings := vr.warnings ++ [line] }
  | Severity.info => { vr with info := vr.info ++ [line] }

/-- The three-valued telemetry phase of the specification's data model,
read off the two booleans of the code: `telemetry_seen` means the tracker
is inside the block; otherwise `telemetry_complete` distinguishes
`Complete` from `NotSeen`. -/
inductive TelemetryPhase where
  | notSeen
  | inBlock
  | complete
deriving Repr, DecidableEq

/-- Phase abstraction of a monitor state. -/
def telemetryPhase (st : MonitorState) : TelemetryPhase :=
  if st.telemetry_seen then TelemetryPhase.inBlock
  else if st.telemetry_complete then TelemetryPhase.complete
  else TelemetryPhase.notSeen

/-- Reason the `select!` loop of `start_server`
(`src/lib/src/validate.rs:387-415`) can exit. -/
inductive LoopExit where
  /-- The `break` in the timeout arm: the armed countdown elapsed with no
  stream event, while `telemetry_complete` was set. -/
  | idle
  /-- The `else => break` arm of the `select!`. It fires only when every
  branch is disabled, and the timeout branch (pattern `_`) is never
  disabled, so no step of the loop ever produces it: the arm is dead
  code. It is kept in the model to state that fact. -/
  | exhausted
deriving Repr, DecidableEq

/-- State of one `start_server` monitoring loop. The two child streams are
modelled as one merged script `pending` of incoming non-empty events: each
entry `(g, raw)` is a raw line that becomes ready `g` seconds after the
previous event the `select!` returned on. `closedStreams` records whether
the child has closed both descriptors once `pending` runs out; the loop's
observable behaviour is independent of it (see `LoopExit.exhausted`),
because a closed stream only disables its `Ok(Some(line))` arm, exactly
like a silent one. -/
structure RunState where
  monitor : MonitorState
  clock : Nat
  pending : List (Nat × String)
  closedStreams : Bool
  exitReason : Option LoopExit
deriving Repr, DecidableEq

/-- One iteration of the `select!` loop of `start_server`
(`src/lib/src/validate.rs:387-415`), with the countdown duration `tmo`
(the code passes the hardcoded 5).

While `telemetry_complete` is false the timeout future is `sleep(0)`,
which completes at once and does nothing, so the next pending line is
always taken, whatever its gap; once `telemetry_complete` is true the
timeout future is `sleep(tmo)`, recreated on every iteration, so it wins
exactly when the next line is at least `tmo` away (a tie is resolved to
the timeout; `select!` leaves it unspecified, and no claim depends on a
tie). When the line wins it is trimmed, discarded if empty, and otherwise
handed to `process_line`. With no pending line left, the stream arms
never produce a value (silent or closed alike) and only the timeout arm
completes: it breaks the loop if `telemetry_complete` holds and does
nothing otherwise, so the loop then spins forever. -/
def selectStep (tmo : Nat) (st : RunState) : RunState :=
  if st.exitReason.isSome then st
  else
    match st.pending with
    | (g, raw) :: rest =>
        if st.monitor.telemetry_complete && decide (tmo ≤ g) then
          { st with exitReason := some LoopExit.idle, clock := st.clock + tmo }
        else
          let line := trimString raw
          let m := if line.isEmpty then st.monitor
                   else process_line (st.clock + g) line st.monitor
          { st with monitor := m, clock := st.clock + g, pending := rest }
    | [] =>
        if st.monitor.telemetry_complete then
          { st with exitReason := some LoopExit.idle, clock := st.clock + tmo }
        else st

/-- The loop, run for `fuel` iterations. -/
def runLoop (tmo : Nat) (st : RunState) (fuel : Nat) : RunState :=
  (selectStep tmo)^[fuel] st

/-- Termination of the loop: some number of iterations reaches a `break`. -/
def loopTerminates (tmo : Nat) (st : RunState) : Prop :=
  ∃ n, ((selectStep tmo)^[n] st).exitReason.isSome = true

/-- Kill/wait bookkeeping of the `tokio::process::Child` owned by
`start_server`: whether the child was spawned, whether `kill()` was
called, whether `wait()` was called. A `tokio` child is not killed on
drop unless `kill_on_drop` is set, which `start_server` does not set, so
a path that returns without `kill()`/`wait()` leaves the child running
unreaped. -/
structure ProcessHandle where
  spawned : Bool
  killed : Bool
  waited : Bool
deriving Repr, DecidableEq

/-- Environment of one `start_server` call: the success or failure of each
fallible step it performs, and the script of lines the child will emit. -/
structure ServerEnv where
  /-- `server_path` exists and is a directory. -/
  server_path_ok : Bool
  /-- `bedrock_server` exists in it. -/
  server_exe_ok : Bool
  /-- spawning the `chmod +x` helper succeeds. -/
  chmod_ok : Bool
  /-- spawning the server child succeeds. -/
  spawn_ok : Bool
  /-- `child.stdout.take()` yields a stream. -/
  stdout_ok : Bool
  /-- `child.stderr.take()` yields a stream. -/
  stderr_ok : Bool
  /-- `child.kill()` succeeds. -/
  kill_ok : Bool
  /-- `child.wait()` succeeds. -/
  wait_ok : Bool
  pending : List (Nat × String)
  closedStreams : Bool
deriving Repr, DecidableEq

/-- Outcome of a `start_server` call observed together with the process
bookkeeping. -/
inductive ServerOutcome where
  /-- The function returned `Err(..)`. -/
  | failed (handle : ProcessHandle)
  /-- The function returned `Ok(validation_result)`. -/
  | finished (result : ValidationResult) (handle : ProcessHandle)
  /-- The loop had not exited after `fuel` iterations. -/
  | stillRunning (handle : ProcessHandle)
deriving Repr, DecidableEq

/-- Faithful control-flow model of `start_server`
(`src/lib/src/validate.rs:333-428`). The `last_log_timeout` parameter is
the value the CLI collects from `--last-log-timeout`
(`src/cli/src/main.rs:104-110`, documented default 2) and forwards
(`src/cli/src/commands/validate.rs:54`); the loop in
`src/lib/src/validate.rs:388-392` never consults it and uses the
hardcoded `Duration::from_secs(5)`. `fuel` bounds the number of loop
iterations observed. -/
def start_server (env : ServerEnv) (last_log_timeout : Option Nat) (fuel : Nat) :
    ServerOutcome :=
  if !env.server_path_ok then ServerOutcome.failed ⟨false, false, false⟩
  else if !env.server_exe_ok then ServerOutcome.failed ⟨false, false, false⟩
  else if !env.chmod_ok then ServerOutcome.failed ⟨false, false, false⟩
  else if !env.spawn_ok then ServerOutcome.failed ⟨false, false, false⟩
  else if !env.stdout_ok then
    ServerOutcome.failed ⟨true, false, false⟩
  else if !env.stderr_ok then
    ServerOutcome.failed ⟨true, false, false⟩
  else
    let stFin := runLoop 5 ⟨initialMonitorState, 0, env.pending, env.closedStreams, none⟩ fuel
    if stFin.exitReason.isSome then
      if env.kill_ok then
        if env.wait_ok then
          ServerOutcome.finished stFin.monitor.validation_result ⟨true, true, true⟩
        else ServerOutcome.failed ⟨true, true, false⟩
      else ServerOutcome.failed ⟨true, false, false⟩
    else ServerOutcome.stillRunning ⟨true, false, false⟩

/-- Verdict engine: the pass/fail tail of `handle_validation_results`
(`src/cli/src/commands/validate.rs:128-161`): `true` models `Ok(())`
(CI passes), `false` models the `Err(..)` return (CI fails). The flags
are `--only-warn` and `--fail-on-warn` (mutually exclusive in the CLI).
The whole function, with the report-grouping pass that precedes this
tail and can panic, is `handle_validation_results_full` below. -/
def handle_validation_results (vr : ValidationResult)
    (only_warn fail_on_warn : Bool) : Bool :=
  if only_warn then true
  else if fail_on_warn then
    !(vr.errors.length > 0 || vr.warnings.length > 0)
  else !(vr.errors.length > 0)

/-- First split of a character list at a separator character: `none` when
the separator does not occur. -/
def splitOnceAux (sep : Char) : List Char → Option (List Char × List Char)
  | [] => none
  | c :: cs =>
      if c == sep then some ([], cs)
      else
        match splitOnceAux sep cs with
        | some (l, r) => some (c :: l, r)
        | none => none

/-- Rust `str::splitn(n, sep)` collected into a list: at most `n` pieces,
the last piece keeping any further separators. -/
def splitnList (n : Nat) (sep : Char) (s : List Char) : List (List Char) :=
  match n with
  | 0 => []
  | 1 => [s]
  | Nat.succ m =>
      match splitOnceAux sep s with
      | some (l, r) => l :: splitnList m sep r
      | none => [s]

/-- Rust `str::trim_start_matches(c)`: strip every leading occurrence. -/
def trimStartMatchesChar (c : Char) (l : List Char) : List Char :=
  l.dropWhile (fun x => x == c)

/-- Rust `str::trim_end_matches(c)`: strip every trailing occurrence. -/
def trimEndMatchesChar (c : Char) (l : List Char) : List Char :=
  (l.reverse.dropWhile (fun x => x == c)).reverse

/-- Rust `parts[1].trim().trim_start_matches('[').trim_end_matches(']')`
from the grouping code of `handle_validation_results`. -/
def categoryOf (p1 : List Char) : String :=
  String.mk (trimEndMatchesChar ']' (trimStartMatchesChar '[' (trimList p1)))

/-- Outcome of grouping one finding line for the report. -/
inductive GroupOutcome where
  /-- A `(category, message)` pair placed into the report. -/
  | grouped (category : String) (message : String)
  /-- The indexing `parts[2]` was evaluated with `parts.len() == 2`:
  an out-of-bounds panic. -/
  | indexOutOfBounds
deriving Repr, DecidableEq

/-- Faithful translation of the per-finding category grouping inlined in
`handle_validation_results` (`src/cli/src/commands/validate.rs:70-86` for
errors, 100-116 for warnings — both bodies are identical):
`parts = line.splitn(3, ']')`; when `parts.len() >= 2` the code reads
`parts[1]` for the category and `parts[2]` for the message, so a list of
exactly two pieces reaches `parts[2]` out of bounds; otherwise the line
goes to the "Other" bucket with the full line as message. -/
def group_line (line : String) : GroupOutcome :=
  match splitnList 3 ']' line.toList with
  | _ :: p1 :: p2 :: _ => GroupOutcome.grouped (categoryOf p1) (String.mk (trimList p2))
  | [_, _] => GroupOutcome.indexOutOfBounds
  | _ => GroupOutcome.grouped "Other" line

/-- Does grouping the given finding lines hit the `parts[2]` out-of-bounds
panic on some line? -/
def groupingPanics (lines : List String) : Bool :=
  lines.any (fun l => group_line l == GroupOutcome.indexOutOfBounds)

/-- Full model of `handle_validation_results`
(`src/cli/src/commands/validate.rs:59-162`), including the report-grouping
pass that runs before the verdict: when the error list is non-empty every
error line is grouped (lines 70-86), then likewise every warning line
(lines 100-116), and only afterwards is the pass/fail decision taken
(lines 128-161). A grouping panic aborts the process before any verdict,
modelled as `none`; `some pass` models the returned verdict. The info
lines are never grouped. -/
def handle_validation_results_full (vr : ValidationResult)
    (only_warn fail_on_warn : Bool) : Option Bool :=
  if vr.errors.length > 0 && groupingPanics vr.errors then none
  else if vr.warnings.length > 0 && groupingPanics vr.warnings then none
  else some (handle_validation_results vr only_warn fail_on_warn)

/-- Monitor state with the server ready and the telemetry block open. -/
def inBlockState : MonitorState :=
  { validation_result := ⟨[], [], []⟩
    last_log_time := 0
    telemetry_seen := true
    server_started := true
    telemetry_complete := false }

/-- Monitor state with the server ready and the telemetry block completed:
the phase in which findings are recorded and the idle countdown is armed. -/
def completeState : MonitorState :=
  { validation_result := ⟨[], [], []⟩
    last_log_time := 0
    telemetry_seen := false
    server_started := true
    telemetry_complete := true }

/-- Loop state just after telemetry completion, with six more non-severity
lines arriving one second apart. -/
def junkAfterCompleteState : RunState :=
  ⟨completeState, 0, List.replicate 6 (1, "junk line"), false, none⟩

/-- Loop state in which the child has closed both streams before the
telemetry block ever completed. -/
def exhaustedEarlyState : RunState :=
  ⟨{ initialMonitorState with server_started := true }, 0, [], true, none⟩

/-- The line script of the specification's end-to-end scenario (§8.7),
parametrised by the separator line it uses; every line arrives promptly. -/
def scenarioScript (sep : String) : List (Nat × String) :=
  [(0, "Starting Server"), (0, "Server started."), (0, "TELEMETRY MESSAGE xyz"),
   (0, "junk line"), (0, sep), (0, "[INFO] [General] all good"),
   (0, "[ERROR] [PackLoader] bad manifest")]

/-- Fresh loop state fed the end-to-end scenario script. -/
def scenarioStart (sep : String) : RunState :=
  ⟨initialMonitorState, 0, scenarioScript sep, false, none⟩

/-- Environment in which everything before and after the loop succeeds
and the child emits a normal startup followed by a finding 3 seconds
after the telemetry separator. -/
def lateLineEnv : ServerEnv :=
  { server_path_ok := true, server_exe_ok := true, chmod_ok := true, spawn_ok := true
    stdout_ok := true, stderr_ok := true, kill_ok := true, wait_ok := true
    pending := [(0, "Server started."), (0, "TELEMETRY MESSAGE"), (0, telemetrySeparator),
                (3, "[ERROR] late finding")]
    closedStreams := false }

/-- Same environment with the late finding arriving 5 seconds after the
separator instead of 3. -/
def lateLineEnv5 : ServerEnv :=
  { lateLineEnv with
      pending := [(0, "Server started."), (0, "TELEMETRY MESSAGE"), (0, telemetrySeparator),
                  (5, "[ERROR] late finding")] }

/-- Environment in which the child spawns but its stdout cannot be
captured. -/
def captureFailEnv : ServerEnv :=
  { lateLineEnv with stdout_ok := false, pending := [], closedStreams := true }

/-- Environment for a clean three-marker run with no findings. -/
def cleanRunEnv : ServerEnv :=
  { lateLineEnv with
      pending := [(0, "Server started."), (0, "TELEMETRY MESSAGE"), (0, telemetrySeparator)] }

/-- C5 counterexample: feeding the run loop the scenario exactly as the
claim writes it — with the 52-character `=` separator line — records
nothing at all (the code's separator test looks for a 54-character run,
so the telemetry block never closes) and the loop has not terminated. -/
theorem c5_counterexample :
    (runLoop 5 (scenarioStart specSeparator52) 8).monitor.validation_result =
      ⟨[], [], []⟩
    ∧ (runLoop 5 (scenarioStart specSeparator52) 8).exitReason = none := by
  decide

/-- C5 amended: the same scenario with the separator line the code
actually recognises (54 `=` characters) yields exactly the claimed
accumulator, the loop then exits once by idle expiry, and under the
default (Normal) policy the verdict fails. -/
theorem c5_amended_scenario :
    (runLoop 5 (scenarioStart telemetrySeparator) 8).exitReason = some LoopExit.idle
    ∧ (runLoop 5 (scenarioStart telemetrySeparator) 8).monitor.validation_result =
        ⟨["[ERROR] [PackLoader] bad manifest"], [], ["[INFO] [General] all good"]⟩
    ∧ handle_validation_results
        (runLoop 5 (scenarioStart telemetrySeparator) 8).monitor.validation_result
        false false = false := by
  decide

/-- C8: grouping a recorded finding line that contains exactly one `]`
evaluates `parts[2]` on a two-element vector: the code panics instead of
placing the line in the "Other" bucket. -/
theorem c8_grouping_panics :
    severityOf "[ERROR] bad manifest" = some Severity.error
    ∧ group_line "[ERROR] bad manifest" = GroupOutcome.indexOutOfBounds
    ∧ group_line "no bracket here" =
        GroupOutcome.grouped "Other" "no bracket here"
    ∧ group_line "[ERROR] [PackLoader] bad manifest" =
        GroupOutcome.grouped "PackLoader" "bad manifest" := by
  decide

/-- C3: after telemetry completion, six non-severity lines arriving one
second apart keep the loop alive for 6 seconds — longer than the
5-second countdown — although no Finding is ever recorded: the countdown
is restarted by every received line (the `select!` recreates the sleep on
each iteration and `last_log_time` is never read), not by recorded
Findings. -/
theorem c3_junk_lines_defeat_idle_expiry :
    (runLoop 5 junkAfterCompleteState 6).exitReason = none
    ∧ (runLoop 5 junkAfterCompleteState 6).monitor.validation_result = ⟨[], [], []⟩
    ∧ (runLoop 5 junkAfterCompleteState 6).clock = 6 := by
  decide

/-- C9: with both streams exhausted before the telemetry block completed,
no number of loop iterations ever reaches a `break`: the timeout arm is
`sleep(0)`, completes doing nothing, and is never disabled, so the
`else => break` arm never runs — the loop spins forever. -/
theorem c9_exhausted_streams_loop_forever :
    exhaustedEarlyState.closedStreams = true
    ∧ exhaustedEarlyState.monitor.telemetry_complete = false
    ∧ ¬ loopTerminates 5 exhaustedEarlyState := by
  refine ⟨rfl, rfl, ?_⟩
  rintro ⟨n, hn⟩
  have hfix : ∀ m, (selectStep 5)^[m] exhaustedEarlyState = exhaustedEarlyState := by
    intro m
    induction m with
    | zero => rfl
    | succ k ih =>
        rw [Function.iterate_succ_apply', ih]
        decide
  rw [hfix n] at hn
  exact absurd hn (by decide)

/-- C10: the idle countdown ignores the caller-supplied
`last_log_timeout`. With the documented default value 2 supplied, a
finding arriving 3 seconds after telemetry completion — past the
documented countdown — is still consumed, and only a 5-second gap (the
hardcoded `Duration::from_secs(5)`) makes the countdown expire. -/
theorem c10_timeout_is_hardcoded :
    start_server lateLineEnv (some 2) 5 =
      ServerOutcome.finished ⟨["[ERROR] late finding"], [], []⟩ ⟨true, true, true⟩
    ∧ start_server lateLineEnv5 (some 2) 5 =
      ServerOutcome.finished ⟨[], [], []⟩ ⟨true, true, true⟩ := by
  decide

/-- C4 counterexample: while the tracker is inside the telemetry block, a
line that is a run of repeated `=` characters — four of them — produces
no `TelemetryEnd`: the code only recognises its 54-character literal. -/
theorem c4_counterexample :
    "====" = String.mk (List.replicate 4 '=')
    ∧ telemetryPhase inBlockState = TelemetryPhase.inBlock
    ∧ (process_line 7 "====" inBlockState).telemetry_complete = false
    ∧ (process_line 7 "====" inBlockState).telemetry_seen = true := by
  decide

/-- C6 counterexample: from a state whose telemetry phase is `Complete`, a
later line containing "TELEMETRY MESSAGE" returns the phase to `InBlock`,
and a severity line processed right after it is dropped: recording is
re-suspended after the block had completed. -/
theorem c6_counterexample :
    telemetryPhase completeState = TelemetryPhase.complete
    ∧ telemetryPhase (process_line 9 "TELEMETRY MESSAGE" completeState) =
        TelemetryPhase.inBlock
    ∧ (process_line 10 "[ERROR] dropped again"
        (process_line 9 "TELEMETRY MESSAGE" completeState)).validation_result.errors
        = [] := by
  decide

/-- C7 counterexample: when the spawned child's stdout cannot be
captured, `start_server` returns the `ServerStartFailed` error without
calling `kill()` or `wait()`: the child outlives the call. -/
theorem c7_counterexample :
    start_server captureFailEnv none 0 = ServerOutcome.failed ⟨true, false, false⟩ := by
  decide

/-- A validation result never equals itself with a line appended to its
error bucket. -/
@[simp] theorem ne_push_error (vr : ValidationResult) (line : String) :
    ¬ (vr = { vr with errors := vr.errors ++ [line] }) := by
  intro h
  have hfield := congrArg ValidationResult.errors h
  have hlen := congrArg List.length hfield
  simp [List.length_append] at hlen

/-- A validation result never equals itself with a line appended to its
warning bucket. -/
@[simp] theorem ne_push_warning (vr : ValidationResult) (line : String) :
    ¬ (vr = { vr with warnings := vr.warnings ++ [line] }) := by
  intro h
  have hfield := congrArg ValidationResult.warnings h
  have hlen := congrArg List.length hfield
  simp [List.length_append] at hlen

/-- A validation result never equals itself with a line appended to its
info bucket. -/
@[simp] theorem ne_push_info (vr : ValidationResult) (line : String) :
    ¬ (vr = { vr with info := vr.info ++ [line] }) := by
  intro h
  have hfield := congrArg ValidationResult.info h
  have hlen := congrArg List.length hfield
  simp [List.length_append] at hlen

/-- C1: for a non-control line carrying a severity keyword, the new state
is exactly the old one with the line pushed onto the corresponding bucket
(and nothing else pushed) precisely when `started` holds and the telemetry
phase is not `InBlock`; moreover, no line of any kind changes any bucket
before the "Server started." marker, and none does while the tracker is
inside the telemetry block. -/
theorem c1_recording_gate :
    (∀ (st : MonitorState) (now : Nat) (line : String) (s : Severity),
      containsStr line "Server started." = false →
      containsStr line "TELEMETRY MESSAGE" = false →
      (st.telemetry_seen && containsStr line telemetrySeparator) = false →
      severityOf line = some s →
      ((process_line now line st).validation_result =
          pushSeverity s line st.validation_result ↔
        (st.server_started = true ∧ telemetryPhase st ≠ TelemetryPhase.inBlock)))
    ∧ (∀ (st : MonitorState) (now : Nat) (line : String),
        st.server_started = false →
        (process_line now line st).validation_result = st.validation_result)
    ∧ (∀ (st : MonitorState) (now : Nat) (line : String),
        st.telemetry_seen = true →
        (process_line now line st).validation_result = st.validation_result) := by
  refine ⟨?_, ?_, ?_⟩
  · intro st now line s h1 h2 h3 hs
    have hgate : (st.server_started = true ∧ telemetryPhase st ≠ TelemetryPhase.inBlock)
        ↔ (st.server_started = true ∧ st.telemetry_seen = false) := by
      unfold telemetryPhase
      cases hb : st.telemetry_seen <;> cases hc : st.telemetry_complete <;> simp [hb, hc]
    rw [hgate]
    cases s
    case error =>
      have hE : containsStr line "ERROR" = true := by
        by_cases hE : containsStr line "ERROR" = true
        · exact hE
        · exfalso
          by_cases hW : containsStr line "WARN" = true <;>
            by_cases hI : containsStr line "INFO" = true <;>
              simp [severityOf, hE, hW, hI] at hs
      cases hseen : st.telemetry_seen
      · cases hst : st.server_started <;>
          simp [process_line, pushSeverity, h1, h2, hseen, hst, hE]
      · have hsep : containsStr line telemetrySeparator = false := by
          simpa [hseen] using h3
        cases hst : st.server_started <;>
          simp [process_line, pushSeverity, h1, h2, hseen, hsep, hst, hE]
    case warning =>
      have hEW : containsStr line "ERROR" = false ∧ containsStr line "WARN" = true := by
        by_cases hE : containsStr line "ERROR" = true <;>
          by_cases hW : containsStr line "WARN" = true <;>
            by_cases hI : containsStr line "INFO" = true <;>
              simp [severityOf, hE, hW, hI] at hs ⊢
      obtain ⟨hE, hW⟩ := hEW
      cases hseen : st.telemetry_seen
      · cases hst : st.server_started <;>
          simp [process_line, pushSeverity, h1, h2, hseen, hst, hE, hW]
      · have hsep : containsStr line telemetrySeparator = false := by
          simpa [hseen] using h3
        cases hst : st.server_started <;>
          simp [process_line, pushSeverity, h1, h2, hseen, hsep, hst, hE, hW]
    case info =>
      have hEWI : containsStr line "ERROR" = false ∧ containsStr line "WARN" = false
          ∧ containsStr line "INFO" = true := by
        by_cases hE : containsStr line "ERROR" = true <;>
          by_cases hW : containsStr line "WARN" = true <;>
            by_cases hI : containsStr line "INFO" = true <;>
              simp [severityOf, hE, hW, hI] at hs ⊢
      obtain ⟨hE, hW, hI⟩ := hEWI
      cases hseen : st.telemetry_seen
      · cases hst : st.server_started <;>
          simp [process_line, pushSeverity, h1, h2, hseen, hst, hE, hW, hI]
      · have hsep : containsStr line telemetrySeparator = false := by
          simpa [hseen] using h3
        cases hst : st.server_started <;>
          simp [process_line, pushSeverity, h1, h2, hseen, hsep, hst, hE, hW, hI]
  · intro st now line hstf
    cases hseen : st.telemetry_seen <;>
      by_cases h1 : containsStr line "Server started." = true <;>
        by_cases h2 : containsStr line "TELEMETRY MESSAGE" = true <;>
          by_cases hsep : containsStr line telemetrySeparator = true <;>
            simp [process_line, h1, h2, hsep, hseen, hstf]
  · intro st now line hseen
    by_cases h1 : containsStr line "Server started." = true <;>
      by_cases h2 : containsStr line "TELEMETRY MESSAGE" = true <;>
        by_cases hsep : containsStr line telemetrySeparator = true <;>
          cases hst : st.server_started <;>
            simp [process_line, h1, h2, hsep, hseen, hst]

/-- C1 witness: the gate theorem instantiated after telemetry completion
on the scenario's error line, with every hypothesis discharged. -/
theorem c1_witness :
    containsStr "[ERROR] [PackLoader] bad manifest" "Server started." = false
    ∧ containsStr "[ERROR] [PackLoader] bad manifest" "TELEMETRY MESSAGE" = false
    ∧ (completeState.telemetry_seen &&
        containsStr "[ERROR] [PackLoader] bad manifest" telemetrySeparator) = false
    ∧ severityOf "[ERROR] [PackLoader] bad manifest" = some Severity.error
    ∧ ((process_line 2 "[ERROR] [PackLoader] bad manifest" completeState).validation_result =
          pushSeverity Severity.error "[ERROR] [PackLoader] bad manifest"
            completeState.validation_result ↔
        (completeState.server_started = true
          ∧ telemetryPhase completeState ≠ TelemetryPhase.inBlock)) :=
  ⟨by decide, by decide, by decide, by decide,
    c1_recording_gate.1 completeState 2 "[ERROR] [PackLoader] bad manifest" Severity.error
      (by decide) (by decide) (by decide) (by decide)⟩

/-- C2 counterexample: under the Lenient policy (`--only-warn`) the
verdict does not always pass — with a single recorded error line holding
exactly one `]`, the category-grouping pass that precedes the decision
panics and no verdict is produced at all, so the grouping does change the
outcome of the call. -/
theorem c2_counterexample :
    handle_validation_results_full ⟨["[ERROR] bad manifest"], [], []⟩ true false = none := by
  decide

/-- C2 amended: provided every recorded error and warning line survives
the report-grouping pass (no line with exactly one `]`), the verdict is
produced and matches the claimed policy table — Lenient always passes,
StrictOnWarn passes exactly when there are neither errors nor warnings,
Normal exactly when there are no errors — and the info bucket, which is
never grouped, cannot influence the call's outcome in any way. When some
error or warning line has exactly one `]`, the grouping panics before any
verdict. -/
theorem c2_amended :
    (∀ (vr : ValidationResult) (fw : Bool),
      groupingPanics vr.errors = false → groupingPanics vr.warnings = false →
      handle_validation_results_full vr true fw = some true)
    ∧ (∀ vr : ValidationResult,
        groupingPanics vr.errors = false → groupingPanics vr.warnings = false →
        (handle_validation_results_full vr false true = some true ↔
          (vr.errors.length = 0 ∧ vr.warnings.length = 0)))
    ∧ (∀ vr : ValidationResult,
        groupingPanics vr.errors = false → groupingPanics vr.warnings = false →
        (handle_validation_results_full vr false false = some true ↔
          vr.errors.length = 0))
    ∧ (∀ (e w i j : List String) (ow fw : Bool),
        handle_validation_results_full ⟨e, w, i⟩ ow fw =
          handle_validation_results_full ⟨e, w, j⟩ ow fw) := by
  refine ⟨?_, ?_, ?_, fun e w i j ow fw => rfl⟩
  · intro vr fw he hw
    simp [handle_validation_results_full, he, hw, handle_validation_results]
  · intro vr he hw
    simp [handle_validation_results_full, he, hw, handle_validation_results]
  · intro vr he hw
    simp [handle_validation_results_full, he, hw, handle_validation_results]

/-- C2 witness: the amended policy table applied to concrete results
whose finding lines all group cleanly — a failing Normal verdict on one
well-bracketed error, and a passing Lenient verdict on the same result. -/
theorem c2_witness :
    groupingPanics ["[ERROR] [PackLoader] bad manifest"] = false
    ∧ groupingPanics ([] : List String) = false
    ∧ (handle_validation_results_full
          ⟨["[ERROR] [PackLoader] bad manifest"], [], []⟩ false false = some true ↔
        (["[ERROR] [PackLoader] bad manifest"] : List String).length = 0)
    ∧ handle_validation_results_full
        ⟨["[ERROR] [PackLoader] bad manifest"], [], []⟩ true false = some true :=
  ⟨by decide, by decide,
    c2_amended.2.2.1 ⟨["[ERROR] [PackLoader] bad manifest"], [], []⟩ (by decide) (by decide),
    c2_amended.1 ⟨["[ERROR] [PackLoader] bad manifest"], [], []⟩ false (by decide) (by decide)⟩

/-- C4 amended: while the tracker is inside the telemetry block, a line
that is not one of the two higher-priority markers produces `TelemetryEnd`
(`telemetry := Complete`, idle clock reset) exactly when it contains the
code's 54-character `=` separator literal — not for an arbitrary run of
repeated `=` characters; and while not inside the block, no line ever
produces a `TelemetryEnd` (the completion flag is untouched). -/
theorem c4_amended (st : MonitorState) (now : Nat) (line : String)
    (h1 : containsStr line "Server started." = false)
    (h2 : containsStr line "TELEMETRY MESSAGE" = false) :
    (st.telemetry_seen = true →
      ((process_line now line st =
          { st with telemetry_seen := false, telemetry_complete := true,
                    last_log_time := now }) ↔
        containsStr line telemetrySeparator = true))
    ∧ (st.telemetry_seen = false →
        (process_line now line st).telemetry_complete = st.telemetry_complete) := by
  constructor
  · intro hseen
    by_cases hsep : containsStr line telemetrySeparator = true
    · simp [process_line, h1, h2, hseen, hsep]
    · simp [process_line, h1, h2, hseen, hsep]
      intro hcontra
      have hproj := congrArg MonitorState.telemetry_seen hcontra
      rw [hseen] at hproj
      simp at hproj
  · intro hseen
    by_cases hE : containsStr line "ERROR" = true <;>
      by_cases hW : containsStr line "WARN" = true <;>
        by_cases hI : containsStr line "INFO" = true <;>
          cases hst : st.server_started <;>
            simp [process_line, h1, h2, hseen, hE, hW, hI, hst]

/-- C4 witness: the amended theorem applied in the in-block state to the
actual separator line, all hypotheses discharged. -/
theorem c4_witness :
    containsStr telemetrySeparator "Server started." = false
    ∧ containsStr telemetrySeparator "TELEMETRY MESSAGE" = false
    ∧ inBlockState.telemetry_seen = true
    ∧ process_line 3 telemetrySeparator inBlockState =
        { inBlockState with telemetry_seen := false, telemetry_complete := true,
                            last_log_time := 3 } :=
  ⟨by decide, by decide, by decide,
    ((c4_amended inBlockState 3 telemetrySeparator (by decide) (by decide)).1
        (by decide)).mpr (by decide)⟩

/-- C6 amended: the completion flag is monotone — once
`telemetry_complete` is set, no later line clears it, and in particular
the telemetry phase never returns to `NotSeen`. (The phase can, however,
return to `InBlock`: see the counterexample.) -/
theorem c6_amended (st : MonitorState) (now : Nat) (line : String)
    (h : st.telemetry_complete = true) :
    (process_line now line st).telemetry_complete = true
    ∧ telemetryPhase (process_line now line st) ≠ TelemetryPhase.notSeen := by
  have hc : (process_line now line st).telemetry_complete = true := by
    cases hseen : st.telemetry_seen <;>
      by_cases h1 : containsStr line "Server started." = true <;>
        by_cases h2 : containsStr line "TELEMETRY MESSAGE" = true <;>
          by_cases hsep : containsStr line telemetrySeparator = true <;>
            by_cases hE : containsStr line "ERROR" = true <;>
              by_cases hW : containsStr line "WARN" = true <;>
                by_cases hI : containsStr line "INFO" = true <;>
                  cases hst : st.server_started <;>
                    simp [process_line, h, h1, h2, hsep, hE, hW, hI, hst, hseen]
  refine ⟨hc, ?_⟩
  unfold telemetryPhase
  cases hs2 : (process_line now line st).telemetry_seen <;> simp [hs2, hc]

/-- C6 witness: monotonicity applied to the completed state and one more
telemetry marker line. -/
theorem c6_witness :
    completeState.telemetry_complete = true
    ∧ (process_line 9 "TELEMETRY MESSAGE" completeState).telemetry_complete = true
    ∧ telemetryPhase (process_line 9 "TELEMETRY MESSAGE" completeState) ≠
        TelemetryPhase.notSeen :=
  ⟨by decide,
    (c6_amended completeState 9 "TELEMETRY MESSAGE" (by decide)).1,
    (c6_amended completeState 9 "TELEMETRY MESSAGE" (by decide)).2⟩

/-- C7 amended: `kill()` followed by `wait()` is performed before return
on the normal exit path — both streams captured, the loop reaching a
`break`, and both `kill()` and `wait()` succeeding; but on the
stdout-capture failure path the function returns its error with the
spawned child neither killed nor waited, so the cleanup does not cover
every exit path. -/
theorem c7_amended :
    (∀ (env : ServerEnv) (t : Option Nat) (fuel : Nat),
      env.server_path_ok = true → env.server_exe_ok = true →
      env.chmod_ok = true → env.spawn_ok = true →
      env.stdout_ok = true → env.stderr_ok = true →
      env.kill_ok = true → env.wait_ok = true →
      (runLoop 5 ⟨initialMonitorState, 0, env.pending, env.closedStreams, none⟩
          fuel).exitReason.isSome = true →
      start_server env t fuel =
        ServerOutcome.finished
          (runLoop 5 ⟨initialMonitorState, 0, env.pending, env.closedStreams, none⟩
            fuel).monitor.validation_result
          ⟨true, true, true⟩)
    ∧ (∀ (env : ServerEnv) (t : Option Nat) (fuel : Nat),
        env.server_path_ok = true → env.server_exe_ok = true →
        env.chmod_ok = true → env.spawn_ok = true →
        env.stdout_ok = false →
        start_server env t fuel = ServerOutcome.failed ⟨true, false, false⟩) := by
  constructor
  · intro env t fuel hp he hc hs h1 h2 hk hw hx
    simp [start_server, hp, he, hc, hs, h1, h2, hk, hw, hx, runLoop]
    simpa [runLoop, Option.isSome_iff_ne_none] using hx
  · intro env t fuel hp he hc hs h1
    simp [start_server, hp, he, hc, hs, h1]

/-- C7 witness: the amended theorem applied to a clean run (all steps
succeed, loop exits by idle expiry after the three markers) and to the
stdout-capture failure environment. -/
theorem c7_witness :
    (cleanRunEnv.server_path_ok = true ∧ cleanRunEnv.server_exe_ok = true
      ∧ cleanRunEnv.chmod_ok = true ∧ cleanRunEnv.spawn_ok = true
      ∧ cleanRunEnv.stdout_ok = true ∧ cleanRunEnv.stderr_ok = true
      ∧ cleanRunEnv.kill_ok = true ∧ cleanRunEnv.wait_ok = true
      ∧ (runLoop 5 ⟨initialMonitorState, 0, cleanRunEnv.pending,
            cleanRunEnv.closedStreams, none⟩ 4).exitReason.isSome = true)
    ∧ start_server cleanRunEnv none 4 =
        ServerOutcome.finished
          (runLoop 5 ⟨initialMonitorState, 0, cleanRunEnv.pending,
            cleanRunEnv.closedStreams, none⟩ 4).monitor.validation_result
          ⟨true, true, true⟩
    ∧ captureFailEnv.stdout_ok = false
    ∧ start_server captureFailEnv none 3 = ServerOutcome.failed ⟨true, false, false⟩ :=
  ⟨⟨by decide, by decide, by decide, by decide, by decide, by decide, by decide,
      by decide, by decide⟩,
    c7_amended.1 cleanRunEnv none 4 (by decide) (by decide) (by decide) (by decide)
      (by decide) (by decide) (by decide) (by decide) (by decide),
    by decide,
    c7_amended.2 captureFailEnv none 3 (by decide) (by decide) (by decide) (by decide)
      (by decide)⟩
